import Mathlib

/-!
# Verification of the tinc virtual-kubelet provider

Shallow embedding of the tinc provider (`providers/tinc`): the in-memory
pod store, key derivation, configuration loading/defaulting, and the
generation of the three mesh configuration artifacts (startup directives,
daemon config, post-up script), together with the provider lifecycle
operations `CreatePod`, `UpdatePod`, `DeletePod`, `GetPod`.

File-system writes and container-runtime invocations are modelled by an
oracle of success flags (`EffResults`) plus an explicit trace of the
external operations each call performs (`EffectOp`); Go maps are modelled
as association lists; errors are an inductive taxonomy mirroring the
error classes the provider produces.
-/

namespace Tinc

/-! ## Constants (source lines 27-68) -/

def tincAutoConnect : String := "yes"

def tincModeSwitch : String := "switch"

def tincDeviceTunTap : String := "/dev/net/tun"

def tincDeviceTypeTap : String := "tap"

def defaultCPUCapacity : String := "20"

def defaultMemoryCapacity : String := "100Gi"

def defaultPodCapacity : String := "20"

def DefaultTincMainName : String := "nodemain"

def DefaultTincRemotePeers : String := "nodepeer"

def DefaultTincMainAddress : String := "172.17.0.2"

def DefaultTincPeerAddress : String := "172.17.0.3"

def DefaultTincMainPrivateAddress : String := "10.1.1.1"

def DefaultTincPeerPrivateAddress : String := "10.1.1.2"

def DefaultTincPort : Int := 655

/-! ## Error taxonomy

The spec's error classes, mapped onto the errors the source produces:
`invalidKey` for the plain errors returned by `buildKey` on an empty
namespace or name, `notFound` for `strongerrors.NotFound`,
`invalidConfiguration` for the quantity-validation errors of `loadConfig`,
`runtimeFailure` for a non-zero docker exit, `fsFailure` for a failed
directory creation or file write. -/

inductive Err where
  | invalidKey : String → Err
  | notFound : String → Err
  | invalidConfiguration : String → Err
  | runtimeFailure : String → Err
  | fsFailure : String → Err
deriving DecidableEq, Repr

/-! ## Data model -/

/-- TincConfig (source lines 99-110): the nine configurable string fields. -/
structure TincConfig where
  AutoConnect : String
  ConnectTo : String
  Device : String
  DeviceType : String
  Mode : String
  Name : String
  CPU : String
  Memory : String
  Pods : String
deriving DecidableEq, Repr

/-- The slice of a `v1.Pod` the provider reads: namespace, name, the
annotation map (`vpnmode` is the only key inspected), and the rest of the
spec as an opaque payload stored by reference and never interpreted. -/
structure Pod where
  podNamespace : String
  podName : String
  podAnnotations : List (String × String)
  payload : String
deriving DecidableEq, Repr

/-- Lookup in a Go `map[string]string`: a missing key yields the zero
value `""`. Used for `pod.Annotations["vpnmode"]`. -/
def annLookup : List (String × String) → String → String
  | [], _ => ""
  | (k', v) :: rest, k => if k' = k then v else annLookup rest k

/-- The provider's in-memory pod store `map[string]*v1.Pod`, modelled as
an association list. -/
def Store := List (String × Pod)
deriving instance DecidableEq, Repr for Store

/-- Go map read `m[k]`. -/
def storeGet : Store → String → Option Pod
  | [], _ => none
  | (k', v) :: rest, k => if k' = k then some v else storeGet rest k

/-- Go map write `m[k] = v`: replaces the binding if present, else adds it. -/
def storePut : Store → String → Pod → Store
  | [], k, v => [(k, v)]
  | (k', v') :: rest, k, v =>
      if k' = k then (k, v) :: rest else (k', v') :: storePut rest k v

/-- Go `delete(m, k)`. -/
def storeDel : Store → String → Store
  | [], _ => []
  | (k', v') :: rest, k =>
      if k' = k then rest else (k', v') :: storeDel rest k

/-- TincProvider (source lines 89-96). -/
structure TincProvider where
  nodeName : String
  pods : Store
  tincAddress : String
  tincSubnet : String
  tincPort : Int
  config : TincConfig
deriving DecidableEq, Repr

/-- The process-wide mutable globals (source lines 70-86) that `CreatePod`
reassigns on every call: mesh identity (addresses and node names) and the
host paths of the generated artifacts. -/
structure Globals where
  myAddress : String
  peerAddress : String
  privateAddress : String
  tincMainName : String
  tincPeerName : String
  tincStartupConfigHost : String
  tincMainConfigHost : String
  tincUpScriptHost : String
deriving DecidableEq, Repr

def initialGlobals : Globals :=
  { myAddress := DefaultTincMainAddress
    peerAddress := DefaultTincPeerAddress
    privateAddress := DefaultTincMainPrivateAddress
    tincMainName := DefaultTincMainName
    tincPeerName := DefaultTincRemotePeers
    tincStartupConfigHost := ""
    tincMainConfigHost := ""
    tincUpScriptHost := "" }

/-! ## Key derivation (source lines 514-529) -/

/-- buildKeyFromNames (source lines 514-516): always succeeds, returning
`fmt.Sprintf("%s-%s", namespace, name)` with a nil error. -/
def buildKeyFromNames (ns nm : String) : Except Err String :=
  Except.ok (ns ++ "-" ++ nm)

/-- buildKey (source lines 519-529): rejects an empty namespace or name,
then delegates to `buildKeyFromNames`. -/
def buildKey (pod : Pod) : Except Err String :=
  if pod.podNamespace = "" then
    Except.error (Err.invalidKey "pod namespace not found")
  else if pod.podName = "" then
    Except.error (Err.invalidKey "pod name not found")
  else
    buildKeyFromNames pod.podNamespace pod.podName

/-! ## Quantity validation

`resource.ParseQuantity` is external library code (k8s.io/apimachinery),
not part of this repository. `parseQuantityOk` models the slice of its
grammar the provider exercises: an optional sign, at least one digit, and
an optional SI or binary suffix. The empty string is not a valid quantity. -/

def validQuantitySuffix (cs : List Char) : Bool :=
  cs = [] || cs = ['n'] || cs = ['u'] || cs = ['m'] ||
  cs = ['k'] || cs = ['M'] || cs = ['G'] || cs = ['T'] ||
  cs = ['P'] || cs = ['E'] ||
  cs = ['K', 'i'] || cs = ['M', 'i'] || cs = ['G', 'i'] ||
  cs = ['T', 'i'] || cs = ['P', 'i'] || cs = ['E', 'i']

/-- Modelled behavior of `resource.ParseQuantity` on the strings this
provider can feed it: valid iff an optional sign is followed by one or
more digits and then a recognized suffix. In particular `""` is invalid
and the defaults `"20"` and `"100Gi"` are valid. -/
def parseQuantityOk (s : String) : Bool :=
  let cs := s.data
  let cs := match cs with
    | '+' :: t => t
    | '-' :: t => t
    | t => t
  let digits := cs.takeWhile Char.isDigit
  let rest := cs.dropWhile Char.isDigit
  !digits.isEmpty && validQuantitySuffix rest

/-! ## Configuration loading (source lines 133-184) -/

/-- The zero value of `TincConfig`: every field is the empty string. -/
def zeroTincConfig : TincConfig :=
  { AutoConnect := "", ConnectTo := "", Device := "", DeviceType := ""
    Mode := "", Name := "", CPU := "", Memory := "", Pods := "" }

/-- loadConfig (source lines 133-184), starting after the file read and
JSON unmarshal: the configuration source is the already-decoded
`map[string]TincConfig`. Defaults are applied to blank fields only inside
the `if _, exist := configMap[nodeName]; exist` block, exactly as in the
source; the three quantity validations then run unconditionally. -/
def loadConfig (configMap : List (String × TincConfig)) (nodeName : String) :
    Except Err TincConfig :=
  let config := zeroTincConfig
  let config :=
    match configMap.lookup nodeName with
    | none => config
    | some c =>
      let c := if c.AutoConnect = "" then { c with AutoConnect := tincAutoConnect } else c
      let c := if c.ConnectTo = "" then { c with ConnectTo := DefaultTincRemotePeers } else c
      let c := if c.Device = "" then { c with Device := tincDeviceTunTap } else c
      let c := if c.DeviceType = "" then { c with DeviceType := tincDeviceTypeTap } else c
      let c := if c.Mode = "" then { c with Mode := tincModeSwitch } else c
      let c := if c.Name = "" then { c with Name := DefaultTincMainName } else c
      let c := if c.CPU = "" then { c with CPU := defaultCPUCapacity } else c
      let c := if c.Memory = "" then { c with Memory := defaultMemoryCapacity } else c
      let c := if c.Pods = "" then { c with Pods := defaultPodCapacity } else c
      c
  if !parseQuantityOk config.CPU then
    Except.error (Err.invalidConfiguration ("Invalid CPU value " ++ config.CPU))
  else if !parseQuantityOk config.Memory then
    Except.error (Err.invalidConfiguration ("Invalid memory value " ++ config.Memory))
  else if !parseQuantityOk config.Pods then
    Except.error (Err.invalidConfiguration ("Invalid pods value " ++ config.Pods))
  else
    Except.ok config

/-- The fully-defaulted configuration: the value `loadConfig` produces for
a node whose entry exists but leaves every field blank. -/
def defaultedTincConfig : TincConfig :=
  { AutoConnect := tincAutoConnect
    ConnectTo := DefaultTincRemotePeers
    Device := tincDeviceTunTap
    DeviceType := tincDeviceTypeTap
    Mode := tincModeSwitch
    Name := DefaultTincMainName
    CPU := defaultCPUCapacity
    Memory := defaultMemoryCapacity
    Pods := defaultPodCapacity }

/-! ## Artifact generation (source lines 457-512)

The text rendering in `createStartupConfig` is pure; the directory
creation and the three file writes are the effectful part and are modelled
separately below. -/

/-- Accumulating scanner behind `goFields`: `acc` holds the reversed
characters of the field being read. -/
def goFieldsAux : List Char → List Char → List String
  | [], acc => if acc = [] then [] else [String.mk acc.reverse]
  | c :: cs, acc =>
      if c.isWhitespace then
        if acc = [] then goFieldsAux cs []
        else String.mk acc.reverse :: goFieldsAux cs []
      else goFieldsAux cs (c :: acc)

/-- Go `strings.Fields`: the maximal runs of non-whitespace characters,
in order; the empty string (and any all-whitespace string) yields `[]`. -/
def goFields (s : String) : List String :=
  goFieldsAux s.data []

/-- The startup-directive text (source lines 459-482): six `add` scalar
lines, the local node's Address/Subnet/Port triple, then one such triple
per entry of `strings.Fields` of the peer list. The source applies this to
the constant `DefaultTincRemotePeers`; the peer list is a parameter here
so the rendering of an arbitrary list can be stated. -/
def createStartupData (cfg : TincConfig)
    (tincPeerNameV tincMainNameV myAddressV peerAddressV : String)
    (tincSubnet : String) (tincPort : Int) (remotePeers : String) : String :=
  let data := "add AutoConnect = " ++ cfg.AutoConnect ++ "\n"
  let data := data ++ "add ConnectTo = " ++ tincPeerNameV ++ "\n"
  let data := data ++ "add Device = " ++ cfg.Device ++ "\n"
  let data := data ++ "add DeviceType = " ++ cfg.DeviceType ++ "\n"
  let data := data ++ "add Mode = " ++ cfg.Mode ++ "\n"
  let data := data ++ "add Name = " ++ tincMainNameV ++ "\n"
  let nodeMain := cfg.Name
  let data := data ++ "add " ++ nodeMain ++ ".Address = " ++ myAddressV ++ "\n"
  let data := data ++ "add " ++ nodeMain ++ ".Subnet = " ++ tincSubnet ++ "\n"
  let data := data ++ "add " ++ nodeMain ++ ".Port = " ++ toString tincPort ++ "\n"
  let nodePeers := goFields remotePeers
  nodePeers.foldl
    (fun acc nodePeer =>
      acc ++ "add " ++ nodePeer ++ ".Address = " ++ peerAddressV ++ "\n"
          ++ "add " ++ nodePeer ++ ".Subnet = " ++ tincSubnet ++ "\n"
          ++ "add " ++ nodePeer ++ ".Port = " ++ toString tincPort ++ "\n")
    data

/-- The daemon-config text `dataMain` (source lines 489-495): the scalar
settings without the `add` prefix. Line five reads
`p.config.ExperimentalProtocol`, a field that does not exist on
`TincConfig` (source lines 99-110), so the source file does not compile as
written; that value is taken as a parameter here. -/
def createMainData (cfg : TincConfig)
    (experimentalProtocol tincPeerNameV tincMainNameV : String) : String :=
  let dataMain := "AutoConnect = " ++ cfg.AutoConnect ++ "\n"
  let dataMain := dataMain ++ "ConnectTo = " ++ tincPeerNameV ++ "\n"
  let dataMain := dataMain ++ "Device = " ++ cfg.Device ++ "\n"
  let dataMain := dataMain ++ "DeviceType = " ++ cfg.DeviceType ++ "\n"
  let dataMain := dataMain ++ "ExperimentalProtocol = " ++ experimentalProtocol ++ "\n"
  let dataMain := dataMain ++ "Mode = " ++ cfg.Mode ++ "\n"
  let dataMain := dataMain ++ "Name = " ++ tincMainNameV ++ "\n"
  dataMain

/-- The post-up script text `dataScr` (source lines 503-505): shebang,
bring the tap device up, assign the private address with a /24 mask. -/
def createUpScript (privateAddressV : String) : String :=
  let dataScr := "#!/bin/bash\n"
  let dataScr := dataScr ++ "ip link set tap0 up\n"
  let dataScr := dataScr ++ "ip addr add " ++ privateAddressV ++ "/24 dev tap0\n"
  dataScr

/-! ## Effects

The external operations a lifecycle call performs, in order, and an oracle
deciding which of them succeed. -/

/-- One external operation: a directory creation, a file write (path and
content), a forced container removal, or a container start. -/
inductive EffectOp where
  | mkdirAll : String → EffectOp
  | writeFile : String → String → EffectOp
  | dockerRmForce : String → EffectOp
  | dockerRun : String → EffectOp
deriving DecidableEq, Repr

/-- Success flags for the fallible external operations of one call. -/
structure EffResults where
  mkdirOk : Bool
  writeStartupOk : Bool
  writeMainOk : Bool
  writeUpOk : Bool
  dockerRmOk : Bool
  dockerRunOk : Bool
deriving DecidableEq, Repr

deriving instance DecidableEq for Except

/-- Outcome of a lifecycle call: the globals and provider after the call,
the trace of external operations that were invoked, and the returned
error, if any. -/
structure OpResult where
  globals : Globals
  provider : TincProvider
  trace : List EffectOp
  result : Except Err Unit
deriving DecidableEq, Repr

/-- createStartupConfig (source lines 457-512): renders the three
artifacts and performs, in order, the directory creation and the three
file writes, stopping at the first failure. -/
def createStartupConfig (eff : EffResults) (g : Globals) (p : TincProvider) :
    List EffectOp × Except Err Unit :=
  let data := createStartupData p.config g.tincPeerName g.tincMainName
    g.myAddress g.peerAddress p.tincSubnet p.tincPort DefaultTincRemotePeers
  let dir := "/tmp/" ++ g.tincMainName
  if !eff.mkdirOk then
    ([EffectOp.mkdirAll dir], Except.error (Err.fsFailure "MkdirAll failed"))
  else if !eff.writeStartupOk then
    ([EffectOp.mkdirAll dir, EffectOp.writeFile g.tincStartupConfigHost data],
     Except.error (Err.fsFailure "WriteFile startup-config failed"))
  else
    let dataMain := createMainData p.config "" g.tincPeerName g.tincMainName
    if !eff.writeMainOk then
      ([EffectOp.mkdirAll dir, EffectOp.writeFile g.tincStartupConfigHost data,
        EffectOp.writeFile g.tincMainConfigHost dataMain],
       Except.error (Err.fsFailure "WriteFile main-config failed"))
    else
      let dataScr := createUpScript g.privateAddress
      if !eff.writeUpOk then
        ([EffectOp.mkdirAll dir, EffectOp.writeFile g.tincStartupConfigHost data,
          EffectOp.writeFile g.tincMainConfigHost dataMain,
          EffectOp.writeFile g.tincUpScriptHost dataScr],
         Except.error (Err.fsFailure "WriteFile up-script failed"))
      else
        ([EffectOp.mkdirAll dir, EffectOp.writeFile g.tincStartupConfigHost data,
          EffectOp.writeFile g.tincMainConfigHost dataMain,
          EffectOp.writeFile g.tincUpScriptHost dataScr],
         Except.ok ())

/-! ## Lifecycle operations (source lines 187-282) -/

/-- CreatePod (source lines 187-228): derive the key, put the pod in the
store, resolve the mesh identity from the `vpnmode` annotation into the
globals, derive the artifact host paths, generate and write the artifacts,
force-remove any previous container (its error is discarded), then start
the mesh container. No failure after the store put removes the record. -/
def CreatePod (eff : EffResults) (g : Globals) (p : TincProvider) (pod : Pod) :
    OpResult :=
  match buildKey pod with
  | Except.error e => ⟨g, p, [], Except.error e⟩
  | Except.ok key =>
    let p := { p with pods := storePut p.pods key pod }
    let g :=
      if annLookup pod.podAnnotations "vpnmode" = "peer" then
        { g with privateAddress := DefaultTincPeerPrivateAddress
                 tincMainName := DefaultTincRemotePeers
                 tincPeerName := DefaultTincMainName }
      else
        { g with privateAddress := DefaultTincMainPrivateAddress
                 tincMainName := DefaultTincMainName
                 tincPeerName := DefaultTincRemotePeers }
    let g :=
      { g with tincStartupConfigHost := "/tmp/" ++ g.tincMainName ++ "/vk-startup-config.conf"
               tincMainConfigHost := "/tmp/" ++ g.tincMainName ++ "/vk-main.conf"
               tincUpScriptHost := "/tmp/" ++ g.tincMainName ++ "/vk-tinc-up" }
    let sc := createStartupConfig eff g p
    match sc.2 with
    | Except.error e => ⟨g, p, sc.1, Except.error e⟩
    | Except.ok _ =>
      let tr := sc.1 ++ [EffectOp.dockerRmForce g.tincMainName,
                         EffectOp.dockerRun g.tincMainName]
      if !eff.dockerRunOk then
        ⟨g, p, tr, Except.error (Err.runtimeFailure "failed to run docker-run")⟩
      else
        ⟨g, p, tr, Except.ok ()⟩

/-- UpdatePod (source lines 231-242): derive the key and overwrite the
stored record. No artifact generation, no runtime invocation. -/
def UpdatePod (g : Globals) (p : TincProvider) (pod : Pod) : OpResult :=
  match buildKey pod with
  | Except.error e => ⟨g, p, [], Except.error e⟩
  | Except.ok key => ⟨g, { p with pods := storePut p.pods key pod }, [], Except.ok ()⟩

/-- DeletePod (source lines 245-267): derive the key, fail `NotFound` if
it is absent, remove the record, then force-remove the container named by
the configuration, whose failure is reported. -/
def DeletePod (eff : EffResults) (g : Globals) (p : TincProvider) (pod : Pod) :
    OpResult :=
  match buildKey pod with
  | Except.error e => ⟨g, p, [], Except.error e⟩
  | Except.ok key =>
    match storeGet p.pods key with
    | none => ⟨g, p, [], Except.error (Err.notFound "pod not found")⟩
    | some _ =>
      let p := { p with pods := storeDel p.pods key }
      if !eff.dockerRmOk then
        ⟨g, p, [EffectOp.dockerRmForce p.config.Name],
         Except.error (Err.runtimeFailure "failed to run docker-rm")⟩
      else
        ⟨g, p, [EffectOp.dockerRmForce p.config.Name], Except.ok ()⟩

/-- GetPod (source lines 270-282): derive the key with
`buildKeyFromNames` (which never fails) and look it up, failing `NotFound`
when absent. -/
def GetPod (p : TincProvider) (ns nm : String) : Except Err Pod :=
  match buildKeyFromNames ns nm with
  | Except.error e => Except.error e
  | Except.ok key =>
    match storeGet p.pods key with
    | some pod => Except.ok pod
    | none =>
      Except.error (Err.notFound
        ("pod \"" ++ ns ++ "/" ++ nm ++ "\" is not known to the provider"))

/-! ## Spec-side renderings

Definitions written from the spec's description of the artifacts, used to
compare the generated text against the documented line structure. -/

/-- Concatenation of a list of lines, each already ending in `"\n"`. -/
def concatLines : List String → String
  | [] => ""
  | l :: ls => l ++ concatLines ls

/-- The six scalar `add <Key> = <Value>` lines of the startup-directive
artifact, in the documented order, with the values the source prints
(`ConnectTo` from the peer-name global, `Name` from the main-name global). -/
def specScalarLines (cfg : TincConfig) (connectToV nameV : String) : List String :=
  ["add AutoConnect = " ++ cfg.AutoConnect ++ "\n",
   "add ConnectTo = " ++ connectToV ++ "\n",
   "add Device = " ++ cfg.Device ++ "\n",
   "add DeviceType = " ++ cfg.DeviceType ++ "\n",
   "add Mode = " ++ cfg.Mode ++ "\n",
   "add Name = " ++ nameV ++ "\n"]

/-- A node's three binding lines in the startup-directive artifact:
`<NodeName>.Address`, `<NodeName>.Subnet`, `<NodeName>.Port`. -/
def specNodeTriple (nodeN addr subnet : String) (port : Int) : List String :=
  ["add " ++ nodeN ++ ".Address = " ++ addr ++ "\n",
   "add " ++ nodeN ++ ".Subnet = " ++ subnet ++ "\n",
   "add " ++ nodeN ++ ".Port = " ++ toString port ++ "\n"]

/-- One three-line binding triple per peer-list entry, in peer-list
order. -/
def tripleBlock (peerAddressV tincSubnet : String) (tincPort : Int) :
    List String → List String
  | [] => []
  | np :: nps => specNodeTriple np peerAddressV tincSubnet tincPort
      ++ tripleBlock peerAddressV tincSubnet tincPort nps

/-- Modelled from the spec: the daemon-config artifact as documented — the
same six scalar settings as the startup directive, rendered as direct
key-value assignment lines without the `add` prefix, and no other lines. -/
def specDaemonLines (cfg : TincConfig) (connectToV nameV : String) : List String :=
  ["AutoConnect = " ++ cfg.AutoConnect ++ "\n",
   "ConnectTo = " ++ connectToV ++ "\n",
   "Device = " ++ cfg.Device ++ "\n",
   "DeviceType = " ++ cfg.DeviceType ++ "\n",
   "Mode = " ++ cfg.Mode ++ "\n",
   "Name = " ++ nameV ++ "\n"]

/-- The three documented lines of the post-up script, in order: shebang,
device up, address assignment with a /24 mask. -/
def specUpScriptLines (privateAddressV : String) : List String :=
  ["#!/bin/bash\n",
   "ip link set tap0 up\n",
   "ip addr add " ++ privateAddressV ++ "/24 dev tap0\n"]

/-! ## Concrete sample values for witnesses -/

def samplePod : Pod := ⟨"default", "web", [], "web-spec"⟩

def samplePodTwo : Pod := ⟨"default", "web", [("role", "db")], "db-spec"⟩

def sampleProvider : TincProvider :=
  ⟨"vkubelet-tinc-0", [], DefaultTincMainAddress, "10.1.1.0/24", DefaultTincPort,
   defaultedTincConfig⟩

def effAllOk : EffResults := ⟨true, true, true, true, true, true⟩

def effRunFails : EffResults := ⟨true, true, true, true, true, false⟩

def sampleProviderWithWeb : TincProvider :=
  { sampleProvider with pods := [("default-web", samplePod)] }

/-- The message of the error `buildKey` returns when a name component is
empty: the namespace is checked first. -/
def invalidKeyMsg (pod : Pod) : String :=
  if pod.podNamespace = "" then "pod namespace not found" else "pod name not found"

/-! ## Helper lemmas -/

theorem storeGet_storePut_self (s : Store) (k : String) (v : Pod) :
    storeGet (storePut s k v) k = some v := by
  induction s with
  | nil => simp [storePut, storeGet]
  | cons kv rest ih =>
    obtain ⟨k', v'⟩ := kv
    by_cases h : k' = k
    · simp [storePut, storeGet, h]
    · simp [storePut, storeGet, h, ih]

theorem storeGet_storePut_ne (s : Store) (k k' : String) (v : Pod) (h : k' ≠ k) :
    storeGet (storePut s k v) k' = storeGet s k' := by
  induction s with
  | nil => simp [storePut, storeGet, Ne.symm h]
  | cons kv rest ih =>
    obtain ⟨k₀, v₀⟩ := kv
    by_cases hk : k₀ = k
    · subst hk
      simp [storePut, storeGet, Ne.symm h]
    · simp [storePut, storeGet, hk, ih]

theorem sep_append_inj {l1 r1 l2 r2 : List Char}
    (h1 : '-' ∉ l1) (h2 : '-' ∉ l2)
    (h : l1 ++ '-' :: r1 = l2 ++ '-' :: r2) : l1 = l2 ∧ r1 = r2 := by
  induction l1 generalizing l2 with
  | nil =>
    cases l2 with
    | nil => simpa using h
    | cons b bs =>
      rw [List.nil_append, List.cons_append] at h
      injection h with hb _
      cases hb
      exact absurd (List.mem_cons_self _ _) h2
  | cons a as ih =>
    cases l2 with
    | nil =>
      rw [List.cons_append, List.nil_append] at h
      injection h with hb _
      cases hb
      exact absurd (List.mem_cons_self _ _) h1
    | cons b bs =>
      rw [List.cons_append, List.cons_append] at h
      injection h with hb hrest
      cases hb
      have h1' : '-' ∉ as := fun m => h1 (List.mem_cons_of_mem _ m)
      have h2' : '-' ∉ bs := fun m => h2 (List.mem_cons_of_mem _ m)
      obtain ⟨e1, e2⟩ := ih h1' h2' hrest
      exact ⟨by rw [e1], e2⟩

theorem key_data (a b : String) :
    (a ++ "-" ++ b).data = a.data ++ '-' :: b.data := by
  rw [String.data_append, String.data_append]
  simp

/-! ## Claim theorems -/

/-- Claim C1 (code bug): the spec says a settings source with no entry for
the node name resolves successfully to the all-default configuration, but
`loadConfig` applies the defaults only inside the entry-exists branch, so
a missing entry leaves every field empty and the unconditional CPU
quantity validation rejects the empty string. An empty source and a
source holding only another node's entry both fail with
`Invalid CPU value`; by contrast, a present entry with all fields blank
does resolve to the all-default configuration, which validates. -/
theorem loadConfig_missing_entry_errors :
    loadConfig [] "node1" =
      Except.error (Err.invalidConfiguration "Invalid CPU value ")
    ∧ loadConfig [("othernode", defaultedTincConfig)] "node1" =
      Except.error (Err.invalidConfiguration "Invalid CPU value ")
    ∧ loadConfig [("node1", zeroTincConfig)] "node1" =
      Except.ok defaultedTincConfig := by
  decide

/-- Claim C2 (counterexample): `buildKeyFromNames` is not injective over
non-empty pairs — the distinct pairs `("a-b", "c")` and `("a", "b-c")`,
all components non-empty, produce the same key `"a-b-c"`. -/
theorem buildKey_collision :
    buildKeyFromNames "a-b" "c" = buildKeyFromNames "a" "b-c"
    ∧ ¬(("a-b" : String) = "a" ∧ ("c" : String) = "b-c")
    ∧ ("a-b" : String) ≠ "" ∧ ("c" : String) ≠ ""
    ∧ ("a" : String) ≠ "" ∧ ("b-c" : String) ≠ "" := by
  decide

/-- Claim C2 (amended): for non-empty pairs whose namespaces do not
contain the separator character `'-'`, `buildKeyFromNames` returns equal
keys exactly when the pairs are equal, and repeated calls on the same pair
return the same key. -/
theorem buildKeyFromNames_injective_stable (ns1 nm1 ns2 nm2 : String)
    (h1 : ns1 ≠ "") (h2 : nm1 ≠ "") (h3 : ns2 ≠ "") (h4 : nm2 ≠ "")
    (hd1 : '-' ∉ ns1.data) (hd2 : '-' ∉ ns2.data) :
    (buildKeyFromNames ns1 nm1 = buildKeyFromNames ns2 nm2 ↔
      ns1 = ns2 ∧ nm1 = nm2)
    ∧ buildKeyFromNames ns1 nm1 = buildKeyFromNames ns1 nm1 := by
  refine ⟨⟨fun h => ?_, fun he => by rw [he.1, he.2]⟩, rfl⟩
  have hs : ns1 ++ "-" ++ nm1 = ns2 ++ "-" ++ nm2 := by
    simpa [buildKeyFromNames] using h
  have hdata : ns1.data ++ '-' :: nm1.data = ns2.data ++ '-' :: nm2.data := by
    have hc := congrArg String.data hs
    rwa [key_data, key_data] at hc
  obtain ⟨e1, e2⟩ := sep_append_inj hd1 hd2 hdata
  exact ⟨String.ext e1, String.ext e2⟩

/-- Witness for C2's amended theorem at concrete inputs. -/
theorem buildKeyFromNames_injective_stable_witness :
    (buildKeyFromNames "kube" "web-1" = buildKeyFromNames "kube" "db-1" ↔
      ("kube" : String) = "kube" ∧ ("web-1" : String) = "db-1")
    ∧ buildKeyFromNames "kube" "web-1" = buildKeyFromNames "kube" "web-1" :=
  buildKeyFromNames_injective_stable "kube" "web-1" "kube" "db-1"
    (by decide) (by decide) (by decide) (by decide) (by decide) (by decide)

/-- In `CreatePod` with a valid key, the store after the call is the
input store with the pod bound to its key, whatever the outcome of the
external operations: no branch after the put touches the store again. -/
theorem CreatePod_pods_eq (eff : EffResults) (g : Globals) (p : TincProvider)
    (pod : Pod) (h1 : pod.podNamespace ≠ "") (h2 : pod.podName ≠ "") :
    (CreatePod eff g p pod).provider.pods =
      storePut p.pods (pod.podNamespace ++ "-" ++ pod.podName) pod := by
  unfold CreatePod
  simp only [buildKey, buildKeyFromNames, h1, h2, ite_false, if_neg]
  split <;> split <;> rfl

/-- Claim C4: for a workload with non-empty namespace and name, when
`CreatePod` returns an error — necessarily from a stage after the store
put, since key derivation is the only earlier stage — the record is still
in the store under its key: no rollback on artifact-write or runtime
failure. -/
theorem CreatePod_keeps_record_on_failure (eff : EffResults) (g : Globals)
    (p : TincProvider) (pod : Pod)
    (h1 : pod.podNamespace ≠ "") (h2 : pod.podName ≠ "")
    (he : ∃ e, (CreatePod eff g p pod).result = Except.error e) :
    storeGet (CreatePod eff g p pod).provider.pods
      (pod.podNamespace ++ "-" ++ pod.podName) = some pod := by
  rw [CreatePod_pods_eq eff g p pod h1 h2]
  exact storeGet_storePut_self p.pods _ pod

/-- Witness for C4: a docker-run failure on a concrete pod leaves the
record in the store. -/
theorem CreatePod_keeps_record_on_failure_witness :
    storeGet (CreatePod effRunFails initialGlobals sampleProvider
        samplePod).provider.pods
      (samplePod.podNamespace ++ "-" ++ samplePod.podName) = some samplePod :=
  CreatePod_keeps_record_on_failure effRunFails initialGlobals sampleProvider
    samplePod (by decide) (by decide)
    ⟨Err.runtimeFailure "failed to run docker-run", by decide⟩

/-- Claim C6: `DeletePod` on a key absent from the store fails `NotFound`
and leaves the globals, the provider (hence the store) and the effect
trace untouched: the container-removal command is never reached. -/
theorem DeletePod_absent_notFound (eff : EffResults) (g : Globals)
    (p : TincProvider) (pod : Pod)
    (h1 : pod.podNamespace ≠ "") (h2 : pod.podName ≠ "")
    (habs : storeGet p.pods (pod.podNamespace ++ "-" ++ pod.podName) = none) :
    DeletePod eff g p pod =
      ⟨g, p, [], Except.error (Err.notFound "pod not found")⟩ := by
  simp [DeletePod, buildKey, buildKeyFromNames, h1, h2, habs]

/-- Witness for C6: deleting a never-created `("default","ghost")` on an
empty store. -/
theorem DeletePod_absent_notFound_witness :
    DeletePod effAllOk initialGlobals sampleProvider ⟨"default", "ghost", [], ""⟩ =
      ⟨initialGlobals, sampleProvider, [],
       Except.error (Err.notFound "pod not found")⟩ :=
  DeletePod_absent_notFound effAllOk initialGlobals sampleProvider
    ⟨"default", "ghost", [], ""⟩ (by decide) (by decide) (by decide)

/-- Claim C7: `UpdatePod` succeeds, performs no external operation,
leaves the globals alone, binds the key to exactly the new record (a
subsequent `storeGet` returns the new record itself, so no field of the
old record survives), and leaves every other key's binding unchanged. -/
theorem UpdatePod_replaces_wholesale (g : Globals) (p : TincProvider) (pod : Pod)
    (h1 : pod.podNamespace ≠ "") (h2 : pod.podName ≠ "") :
    (UpdatePod g p pod).result = Except.ok ()
    ∧ (UpdatePod g p pod).trace = []
    ∧ (UpdatePod g p pod).globals = g
    ∧ storeGet (UpdatePod g p pod).provider.pods
        (pod.podNamespace ++ "-" ++ pod.podName) = some pod
    ∧ ∀ k, k ≠ pod.podNamespace ++ "-" ++ pod.podName →
        storeGet (UpdatePod g p pod).provider.pods k = storeGet p.pods k := by
  refine ⟨?_, ?_, ?_, ?_, ?_⟩ <;>
    simp [UpdatePod, buildKey, buildKeyFromNames, h1, h2, storeGet_storePut_self]
  intro k hk
  exact storeGet_storePut_ne p.pods _ k pod hk

/-- Witness for C7: overwriting the stored `("default","web")` record with
a new record that drops its payload and adds an annotation; an unrelated
key is unaffected. -/
theorem UpdatePod_replaces_wholesale_witness :
    (UpdatePod initialGlobals sampleProviderWithWeb samplePodTwo).result =
      Except.ok ()
    ∧ (UpdatePod initialGlobals sampleProviderWithWeb samplePodTwo).trace = []
    ∧ (UpdatePod initialGlobals sampleProviderWithWeb samplePodTwo).globals =
      initialGlobals
    ∧ storeGet (UpdatePod initialGlobals sampleProviderWithWeb
          samplePodTwo).provider.pods
        (samplePodTwo.podNamespace ++ "-" ++ samplePodTwo.podName) =
      some samplePodTwo
    ∧ storeGet (UpdatePod initialGlobals sampleProviderWithWeb
          samplePodTwo).provider.pods "kube-db" =
      storeGet sampleProviderWithWeb.pods "kube-db" := by
  obtain ⟨r1, r2, r3, r4, r5⟩ :=
    UpdatePod_replaces_wholesale initialGlobals sampleProviderWithWeb
      samplePodTwo (by decide) (by decide)
  exact ⟨r1, r2, r3, r4, r5 "kube-db" (by decide)⟩

/-- Claim C8: with an empty namespace or an empty name, `buildKey` fails
with the invalid-key error (namespace checked first), and `CreatePod`,
`UpdatePod` and `DeletePod` all return exactly that error with the
globals, the store and the effect trace untouched. -/
theorem empty_names_rejected (eff : EffResults) (g : Globals)
    (p : TincProvider) (pod : Pod)
    (h : pod.podNamespace = "" ∨ pod.podName = "") :
    buildKey pod = Except.error (Err.invalidKey (invalidKeyMsg pod))
    ∧ CreatePod eff g p pod =
      ⟨g, p, [], Except.error (Err.invalidKey (invalidKeyMsg pod))⟩
    ∧ UpdatePod g p pod =
      ⟨g, p, [], Except.error (Err.invalidKey (invalidKeyMsg pod))⟩
    ∧ DeletePod eff g p pod =
      ⟨g, p, [], Except.error (Err.invalidKey (invalidKeyMsg pod))⟩ := by
  by_cases hns : pod.podNamespace = ""
  · refine ⟨?_, ?_, ?_, ?_⟩ <;>
      simp [buildKey, invalidKeyMsg, hns, CreatePod, UpdatePod, DeletePod]
  · have hn : pod.podName = "" := h.resolve_left hns
    refine ⟨?_, ?_, ?_, ?_⟩ <;>
      simp [buildKey, invalidKeyMsg, hns, hn, CreatePod, UpdatePod, DeletePod]

/-- Witness for C8: a pod with an empty namespace is rejected by all three
mutating calls without touching anything. -/
theorem empty_names_rejected_witness :
    buildKey ⟨"", "web", [], ""⟩ =
      Except.error (Err.invalidKey (invalidKeyMsg ⟨"", "web", [], ""⟩))
    ∧ CreatePod effAllOk initialGlobals sampleProvider ⟨"", "web", [], ""⟩ =
      ⟨initialGlobals, sampleProvider, [],
       Except.error (Err.invalidKey (invalidKeyMsg ⟨"", "web", [], ""⟩))⟩
    ∧ UpdatePod initialGlobals sampleProvider ⟨"", "web", [], ""⟩ =
      ⟨initialGlobals, sampleProvider, [],
       Except.error (Err.invalidKey (invalidKeyMsg ⟨"", "web", [], ""⟩))⟩
    ∧ DeletePod effAllOk initialGlobals sampleProvider ⟨"", "web", [], ""⟩ =
      ⟨initialGlobals, sampleProvider, [],
       Except.error (Err.invalidKey (invalidKeyMsg ⟨"", "web", [], ""⟩))⟩ :=
  empty_names_rejected effAllOk initialGlobals sampleProvider
    ⟨"", "web", [], ""⟩ (Or.inl rfl)

/-- Claim C10: `GetPod` never fails with an invalid-key error —
`buildKeyFromNames` succeeds on every pair, empty components included —
and when nothing is stored under the concatenated key the call fails
`NotFound` (asymmetric with the mutating calls, which reject empty
components). -/
theorem GetPod_empty_names_notFound (p : TincProvider) (ns nm : String)
    (h : ns = "" ∨ nm = "")
    (habs : storeGet p.pods (ns ++ "-" ++ nm) = none) :
    buildKeyFromNames ns nm = Except.ok (ns ++ "-" ++ nm)
    ∧ GetPod p ns nm = Except.error (Err.notFound
        ("pod \"" ++ ns ++ "/" ++ nm ++ "\" is not known to the provider")) :=
  ⟨rfl, by simp [GetPod, buildKeyFromNames, habs]⟩

/-- Witness for C10: an empty namespace with a stored-nothing provider
yields `NotFound`, not an invalid-key error. -/
theorem GetPod_empty_names_notFound_witness :
    buildKeyFromNames "" "web" = Except.ok ("" ++ "-" ++ "web")
    ∧ GetPod sampleProvider "" "web" = Except.error (Err.notFound
        ("pod \"" ++ "" ++ "/" ++ "web" ++ "\" is not known to the provider")) :=
  GetPod_empty_names_notFound sampleProvider "" "web" (Or.inl rfl) (by decide)

theorem concatLines_append (xs ys : List String) :
    concatLines (xs ++ ys) = concatLines xs ++ concatLines ys := by
  induction xs with
  | nil => simp [concatLines]
  | cons x xs ih => simp [concatLines, ih, String.append_assoc]

/-- The peer loop of `createStartupData` appends exactly the
concatenation of one binding triple per list entry, in order. -/
theorem startup_peer_foldl (peerAddressV tincSubnet : String) (tincPort : Int) :
    ∀ (l : List String) (init : String),
      l.foldl (fun acc nodePeer =>
          acc ++ "add " ++ nodePeer ++ ".Address = " ++ peerAddressV ++ "\n"
              ++ "add " ++ nodePeer ++ ".Subnet = " ++ tincSubnet ++ "\n"
              ++ "add " ++ nodePeer ++ ".Port = " ++ toString tincPort ++ "\n") init
        = init ++ concatLines (tripleBlock peerAddressV tincSubnet tincPort l)
  | [], init => by simp [tripleBlock, concatLines]
  | np :: l, init => by
    rw [List.foldl_cons, startup_peer_foldl peerAddressV tincSubnet tincPort l]
    apply String.ext
    simp only [tripleBlock, specNodeTriple, concatLines_append, concatLines,
      String.append_empty, String.data_append, List.append_assoc,
      List.cons_append, List.nil_append, List.append_eq]

/-- Claim C5: for every configuration and peer list, the
startup-directive artifact is exactly the six scalar `add` lines, then
the local node's Address/Subnet/Port triple, then one such triple per
whitespace-separated peer-list entry in order; with an empty peer list
the peer block is omitted (rendering is total, so generation
succeeds). -/
theorem startup_directive_structure :
    (∀ (cfg : TincConfig) (pn mn myA peerA subnet : String) (port : Int)
        (peers : String),
      createStartupData cfg pn mn myA peerA subnet port peers =
        concatLines (specScalarLines cfg pn mn
          ++ specNodeTriple cfg.Name myA subnet port
          ++ tripleBlock peerA subnet port (goFields peers)))
    ∧ (∀ (cfg : TincConfig) (pn mn myA peerA subnet : String) (port : Int),
      goFields "" = []
      ∧ createStartupData cfg pn mn myA peerA subnet port "" =
          concatLines (specScalarLines cfg pn mn
            ++ specNodeTriple cfg.Name myA subnet port)) := by
  have main : ∀ (cfg : TincConfig) (pn mn myA peerA subnet : String)
      (port : Int) (peers : String),
      createStartupData cfg pn mn myA peerA subnet port peers =
        concatLines (specScalarLines cfg pn mn
          ++ specNodeTriple cfg.Name myA subnet port
          ++ tripleBlock peerA subnet port (goFields peers)) := by
    intro cfg pn mn myA peerA subnet port peers
    simp only [createStartupData]
    rw [startup_peer_foldl]
    apply String.ext
    simp only [specScalarLines, specNodeTriple, concatLines_append, concatLines,
      String.append_empty, String.data_append, List.append_assoc,
      List.cons_append, List.nil_append, List.append_eq]
  refine ⟨main, fun cfg pn mn myA peerA subnet port => ⟨rfl, ?_⟩⟩
  rw [main]
  rfl

/-- Claim C9: for every private address, the post-up script is exactly
the three documented lines in order — shebang, bring the tap device up,
assign the address with a /24 mask — and, when the address itself holds
no newline, the script has exactly three newline characters. -/
theorem post_up_script_structure (addr : String) :
    createUpScript addr = concatLines (specUpScriptLines addr)
    ∧ (addr.data.count '\n' = 0 →
        (createUpScript addr).data.count '\n' = 3) := by
  constructor
  · apply String.ext
    simp only [createUpScript, specUpScriptLines, concatLines,
      String.append_empty, String.data_append, List.append_assoc]
  · intro h
    simp only [createUpScript, String.data_append, List.count_append, h]
    decide

/-- Witness for C9 at the default private address. -/
theorem post_up_script_structure_witness :
    createUpScript "10.1.1.1" = concatLines (specUpScriptLines "10.1.1.1")
    ∧ (createUpScript "10.1.1.1").data.count '\n' = 3 :=
  ⟨(post_up_script_structure "10.1.1.1").1,
   (post_up_script_structure "10.1.1.1").2 (by decide)⟩

/-- Claim C3 (code bug): the daemon-config artifact is not the six scalar
lines of the startup directive rendered without the `add` prefix — the
source emits a seventh line `ExperimentalProtocol = <value>` between
`DeviceType` and `Mode`, reading a field that does not exist on
`TincConfig`, so the artifact has seven lines where the claim allows
six. Evaluated at the defaulted configuration and default mesh
identity. -/
theorem daemon_config_has_extra_line :
    createMainData defaultedTincConfig "" DefaultTincRemotePeers
        DefaultTincMainName ≠
      concatLines (specDaemonLines defaultedTincConfig DefaultTincRemotePeers
        DefaultTincMainName)
    ∧ (createMainData defaultedTincConfig "" DefaultTincRemotePeers
        DefaultTincMainName).data.count '\n' = 7
    ∧ (concatLines (specDaemonLines defaultedTincConfig DefaultTincRemotePeers
        DefaultTincMainName)).data.count '\n' = 6 := by
  decide

end Tinc
